import Mathlib

/-!
Verification development for the dbExplorer backend (FastAPI + per-backend
database connectors + a Redis cache layer).

The Lean definitions below are shallow embeddings of the Python source:

  * `src/app/db/redis_caches.py`   — cache store, `get_cache`,
    `invalidate_table_cache`, `cache_selected_columns_records` key scheme;
  * `src/app/routers/tables.py`    — the write handlers
    `create_table_record`, `update_table_record`, `delete_single_record`,
    and the `get_selected_columns_records` statement text;
  * `src/app/db/dbDriver/mysqlConnector.py`,
    `src/app/db/dbDriver/mssqlConnector.py`,
    `src/app/db/dbDriver/mongoDbConnector.py` — record count, pagination
    (including the MSSQL fallback chain), create/update/delete.

Python exceptions are modelled with `Except`, the Redis store as an
association list of key/payload pairs together with a `faulty` flag (when
the flag is set every Redis primitive raises, which is how a cache-store
fault reaches the `try`/`except` blocks of the source), and the relational
backend as an in-memory list of tables.  Machine-level details (wire
protocols, float rounding of `math.ceil` beyond 2^53, concurrent
interleavings) are outside the model; each operation is a pure function
from states to states.
-/

namespace DbExp

/-! ### Redis glob patterns

`redis_client.keys(pattern)` matches keys against a glob pattern.  The
patterns built by `redis_caches.py` are either literal keys or a literal
text followed by `*`.  The matcher below implements `*` (any sequence) and
`?` (any single character); `[` classes and `\` escapes are not used by the
source's patterns, and the theorems that need literal behaviour carry a
`noGlobStr` hypothesis excluding those characters. -/

/-- Characters that redis glob patterns treat specially. -/
def noGlobChars (l : List Char) : Bool :=
  l.all (fun c => !(c == '*' || c == '?' || c == '[' || c == '\\'))

/-- A string free of glob metacharacters; such a string occurs literally in
a pattern. -/
def noGlobStr (s : String) : Bool :=
  noGlobChars s.data

/-- Glob matching of a pattern against a key, both as character lists.
`*` consumes any (possibly empty) run of characters: the rest of the
pattern must match some suffix of the key. -/
def globMatch : List Char → List Char → Bool
  | [], s => s.isEmpty
  | p :: ps, s =>
      if p == '*' then
        s.tails.any (fun v => globMatch ps v)
      else
        match s with
        | [] => false
        | c :: s' => (p == c || p == '?') && globMatch ps s'

/-! ### The cache store

`redis_caches.py` stores every value as a string (`json.dumps` for dicts
and lists, `str(...)` otherwise) and reads it back through `json.loads`.
A stored payload is therefore either a string `json.loads` accepts (carrying
a value), a non-empty string it rejects, or the empty string — the latter is
separate because `get_cache` tests `if value:` before attempting to parse,
and the empty string is falsy in Python. -/

/-- A raw stored payload, classified by how `get_cache` treats it. -/
inductive Payload (V : Type) where
  | json (v : V)
  | bad (s : String)
  | empty
deriving DecidableEq, Repr

/-- The Redis store: an association list of key/payload entries plus a
fault flag.  When `faulty` is set every Redis primitive raises, modelling a
cache-store fault (connection refused, timeout, …). -/
structure RedisState (V : Type) where
  entries : List (String × Payload V)
  faulty : Bool
deriving DecidableEq, Repr

/-- The keys currently present in the store. -/
def RedisState.keys (st : RedisState V) : List String :=
  st.entries.map Prod.fst

/-- Primitive `redis_client.get`: raises when the store is faulty. -/
def redisGet (st : RedisState V) (key : String) : Except Unit (Option (Payload V)) :=
  if st.faulty then .error () else .ok (st.entries.lookup key)

/-- Primitive `redis_client.delete key`: removes the binding, returning the
number of keys removed. -/
def redisDelete (st : RedisState V) (key : String) : Except Unit (Nat × RedisState V) :=
  if st.faulty then .error ()
  else .ok ((st.entries.filter (fun e => e.1 == key)).length,
            { st with entries := st.entries.filter (fun e => !(e.1 == key)) })

/-- Primitive `redis_client.keys pattern`: the keys matching a glob pattern. -/
def redisKeys (st : RedisState V) (pat : String) : Except Unit (List String) :=
  if st.faulty then .error ()
  else .ok ((st.entries.map Prod.fst).filter (fun k => globMatch pat.data k.data))

/-- Primitive `redis_client.delete *keys`: removes every listed key. -/
def redisDeleteMany (st : RedisState V) (ks : List String) :
    Except Unit (Nat × RedisState V) :=
  if st.faulty then .error ()
  else .ok ((st.entries.filter (fun e => decide (e.1 ∈ ks))).length,
            { st with entries := st.entries.filter (fun e => !decide (e.1 ∈ ks)) })

/-- Embedding of `get_cache` (redis_caches.py lines 37–54): read the raw
value; a missing or empty value is falsy and yields `None`; a payload
`json.loads` rejects is deleted and yields `None`; every Redis fault is
caught and yields `None`. -/
def get_cache (st : RedisState V) (key : String) : Option V × RedisState V :=
  match redisGet st key with
  | .error _ => (none, st)
  | .ok none => (none, st)
  | .ok (some (.json v)) => (some v, st)
  | .ok (some .empty) => (none, st)
  | .ok (some (.bad _)) =>
      match redisDelete st key with
      | .ok (_, st') => (none, st')
      | .error _ => (none, st)

/-- The table-scoped cache namespace: the key text every cache entry for
`table_name` in session `session_id` starts with. -/
def tableNs (session_id table_name : String) : String :=
  session_id ++ ":table:" ++ table_name ++ ":"

/-- The five patterns `invalidate_table_cache` deletes
(redis_caches.py lines 306–312). -/
def tablePatterns (session_id table_name : String) : List String :=
  [tableNs session_id table_name ++ "*",
   tableNs session_id table_name ++ "records:*",
   tableNs session_id table_name ++ "selected:*",
   session_id ++ ":table:" ++ table_name ++ ":count",
   session_id ++ ":table:" ++ table_name ++ ":columns"]

/-- The `for pattern in patterns` loop body of `invalidate_table_cache`:
fetch the matching keys and, when there are any, delete them, accumulating
the count.  Any Redis fault aborts the loop with an exception. -/
def invalidateGo : RedisState V → List String → Nat → Except Unit (Nat × RedisState V)
  | st, [], acc => .ok (acc, st)
  | st, pat :: pats, acc =>
      match redisKeys st pat with
      | .error e => .error e
      | .ok ks =>
          if ks.isEmpty then invalidateGo st pats acc
          else
            match redisDeleteMany st ks with
            | .error e => .error e
            | .ok (n, st') => invalidateGo st' pats (acc + n)

/-- Embedding of `invalidate_table_cache` (redis_caches.py lines 303–326):
the loop over the five patterns runs inside a `try`; any exception is
caught, logged and turned into the return value `0`. -/
def invalidate_table_cache (st : RedisState V) (session_id table_name : String) :
    Nat × RedisState V :=
  match invalidateGo st (tablePatterns session_id table_name) 0 with
  | .ok r => r
  | .error _ => (0, st)

/-! ### The router write handlers

`routers/tables.py` runs the backend write inside a `try`, and on a truthy
result calls `invalidate_table_cache` and only then builds the success
response.  The backend call itself is abstracted as its outcome: an
exception, a falsy value, or a truthy value.  The handler is a pure
function from that outcome and the cache state to the HTTP response and
the cache state at the moment the response is returned. -/

/-- The part of the HTTP response the claims are about. -/
structure WriteResponse where
  success : Bool
  status : Nat
deriving DecidableEq, Repr

/-- Embedding of `update_table_record` (routers/tables.py lines 261–293). -/
def update_table_record (dbResult : Except Unit Bool) (st : RedisState V)
    (session_id table_name : String) : WriteResponse × RedisState V :=
  match dbResult with
  | .error _ => (⟨false, 500⟩, st)
  | .ok false => (⟨false, 200⟩, st)
  | .ok true =>
      let r := invalidate_table_cache st session_id table_name
      (⟨true, 200⟩, r.2)

/-- Embedding of `delete_single_record` (routers/tables.py lines 299–329). -/
def delete_single_record (dbResult : Except Unit Bool) (st : RedisState V)
    (session_id table_name : String) : WriteResponse × RedisState V :=
  match dbResult with
  | .error _ => (⟨false, 500⟩, st)
  | .ok false => (⟨false, 200⟩, st)
  | .ok true =>
      let r := invalidate_table_cache st session_id table_name
      (⟨true, 200⟩, r.2)

/-- Python truthiness of the id returned by `create_record`: `None` and
`0` (a `lastrowid` of 0) are falsy. -/
def truthyId : Option Nat → Bool
  | none => false
  | some n => n != 0

/-- Embedding of `create_table_record` (routers/tables.py lines 224–259):
the handler invalidates and reports success only when `record_id` is
truthy. -/
def create_table_record (dbResult : Except Unit (Option Nat)) (st : RedisState V)
    (session_id table_name : String) : WriteResponse × RedisState V :=
  match dbResult with
  | .error _ => (⟨false, 500⟩, st)
  | .ok rid =>
      if truthyId rid then
        let r := invalidate_table_cache st session_id table_name
        (⟨true, 200⟩, r.2)
      else (⟨false, 200⟩, st)

/-! ### Cache-store faults that strike mid-request

`RedisState.faulty` is all-or-nothing: either every primitive call works
or the very first one raises.  The Python client can instead fail part-way
through the invalidation loop — `delete` calls already executed have
mutated the store by the time the `except` block of
`invalidate_table_cache` catches the error and returns `0`.
`RedisStepState` refines the store with a countdown of primitive calls
that still succeed, so a fault can strike between any two steps of the
loop; the boolean model is the two end points of this one (a large budget,
and a budget of zero). -/

/-- The Redis store with a budget of primitive calls that still succeed;
call number `okOps + 1` raises. -/
structure RedisStepState (V : Type) where
  entries : List (String × Payload V)
  okOps : Nat
deriving DecidableEq, Repr

/-- Primitive `redis_client.keys pattern` on the step store: consumes one
successful call, or raises once the budget is exhausted. -/
def redisKeysStep (st : RedisStepState V) (pat : String) :
    Except Unit (List String × RedisStepState V) :=
  if st.okOps = 0 then .error ()
  else .ok ((st.entries.map Prod.fst).filter (fun k => globMatch pat.data k.data),
            { st with okOps := st.okOps - 1 })

/-- Primitive `redis_client.delete *keys` on the step store. -/
def redisDeleteManyStep (st : RedisStepState V) (ks : List String) :
    Except Unit (Nat × RedisStepState V) :=
  if st.okOps = 0 then .error ()
  else .ok ((st.entries.filter (fun e => decide (e.1 ∈ ks))).length,
            { entries := st.entries.filter (fun e => !decide (e.1 ∈ ks)),
              okOps := st.okOps - 1 })

/-- The `invalidate_table_cache` loop over the step store.  A raise aborts
the loop and carries the store as it is at that moment: deletions already
performed persist, exactly as with the Python client. -/
def invalidateGoStep :
    RedisStepState V → List String → Nat →
      Except (RedisStepState V) (Nat × RedisStepState V)
  | st, [], acc => .ok (acc, st)
  | st, pat :: pats, acc =>
      match redisKeysStep st pat with
      | .error _ => .error st
      | .ok (ks, st1) =>
          if ks.isEmpty then invalidateGoStep st1 pats acc
          else
            match redisDeleteManyStep st1 ks with
            | .error _ => .error st1
            | .ok (n, st2) => invalidateGoStep st2 pats (acc + n)

/-- `invalidate_table_cache` over the step store: the `except` block
catches the fault, logs it and returns `0`; the store keeps whatever the
loop had already deleted before the fault. -/
def invalidate_table_cache_step (st : RedisStepState V)
    (session_id table_name : String) : Nat × RedisStepState V :=
  match invalidateGoStep st (tablePatterns session_id table_name) 0 with
  | .ok r => r
  | .error stf => (0, stf)

/-- `update_table_record` over the step store: same handler control flow
as `update_table_record`, reading and writing the refined store. -/
def update_table_record_step (dbResult : Except Unit Bool) (st : RedisStepState V)
    (session_id table_name : String) : WriteResponse × RedisStepState V :=
  match dbResult with
  | .error _ => (⟨false, 500⟩, st)
  | .ok false => (⟨false, 200⟩, st)
  | .ok true =>
      let r := invalidate_table_cache_step st session_id table_name
      (⟨true, 200⟩, r.2)

/-! ### The relational backend

An in-memory model of the relational database a connector talks to: a list
of tables, each with declared columns, an optional primary-key column, and
rows stored in their physical order.  A row is an association list from
column name to value; the value type `V` is a parameter with decidable
equality (and a linear order where `ORDER BY` appears). -/

/-- A row: column name to value, in declared-column order. -/
abbrev DbRow (V : Type) := List (String × V)

/-- A relational table. -/
structure DbTable (V : Type) where
  name : String
  columns : List String
  primaryKey : Option String
  rows : List (DbRow V)
deriving DecidableEq, Repr

/-- A database: the tables of the connected schema. -/
structure Db (V : Type) where
  tables : List (DbTable V)
deriving DecidableEq, Repr

/-- Catalog lookup of a table by name. -/
def Db.findTable (db : Db V) (t : String) : Option (DbTable V) :=
  db.tables.find? (fun tb => tb.name == t)

/-- The catalog's columns of a table (empty when the table is unknown). -/
def Db.columnsOf (db : Db V) (t : String) : List String :=
  match db.findTable t with
  | some tb => tb.columns
  | none => []

/-- The rows of a table (empty when the table is unknown). -/
def Db.rowsOf (db : Db V) (t : String) : List (DbRow V) :=
  match db.findTable t with
  | some tb => tb.rows
  | none => []

/-- Connection state shared by the relational connectors: `connected`
models `self.conn` being non-`None`, `fault` makes every statement
execution raise (backend unreachable mid-request, statement fault, …). -/
structure ConnState (V : Type) where
  connected : Bool
  fault : Bool
  db : Db V
deriving DecidableEq, Repr

/-- Python exceptions the connectors raise or catch. -/
inductive PyErr where
  | valueError
  | dbError
deriving DecidableEq, Repr

/-- Embedding of `_validate_table_exists` (mysqlConnector.py lines 165–176,
mssqlConnector.py lines 311–326): a catalog query that raises `ValueError`
when the table is absent, and a backend error when execution faults. -/
def validate_table_exists (c : ConnState V) (t : String) : Except PyErr Bool :=
  if c.fault then .error .dbError
  else if (c.db.findTable t).isSome then .ok true
  else .error .valueError

/-- Embedding of `_validate_columns` (mysqlConnector.py lines 178–189,
mssqlConnector.py lines 328–342): keep exactly the requested columns that
the catalog lists for the table. -/
def validate_columns (c : ConnState V) (t : String) (cols : List String) : List String :=
  cols.filter (fun col => decide (col ∈ c.db.columnsOf t))

/-- Embedding of `_get_primary_key_or_first_column`: the discovered primary
key, else the first declared column, else a default name. -/
def primary_key_or_first_column (c : ConnState V) (t : String) (dflt : String) : String :=
  match c.db.findTable t with
  | some tb => tb.primaryKey.getD (tb.columns.headD dflt)
  | none => dflt

/-- Number of rows whose value in column `pk` equals `id` — the `rowcount`
of an `UPDATE`/`DELETE` with `WHERE pk = id`. -/
def matchCount [DecidableEq V] (rows : List (DbRow V)) (pk : String) (id : V) : Nat :=
  (rows.filter (fun r => r.lookup pk == some id)).length

/-! ### Pagination strategies

`mssqlConnector.get_paginated_records` (lines 194–309) computes the count,
then tries three row-retrieval methods in order.  In this deterministic
model the physical row order of the table stands for the order the engine
enumerates rows in when no meaningful `ORDER BY` is given
(`ORDER BY (SELECT NULL)` in methods 1 and 2). -/

/-- Method 1 (lines 236–249): `OFFSET (page-1)*page_size ROWS FETCH NEXT
page_size ROWS ONLY` over the enumeration order. -/
def offsetFetchRows (rows : List ρ) (page pageSize : Nat) : List ρ :=
  (rows.drop ((page - 1) * pageSize)).take pageSize

/-- Row numbering used by the `ROW_NUMBER()` window, 1-based. -/
def numberFrom (n : Nat) : List ρ → List (Nat × ρ)
  | [] => []
  | r :: rs => (n, r) :: numberFrom (n + 1) rs

/-- Method 2 (lines 252–268): keep the rows whose 1-based `ROW_NUMBER()`
lies between `(page-1)*page_size + 1` and `page*page_size`. -/
def rowNumberRows (rows : List ρ) (page pageSize : Nat) : List ρ :=
  ((numberFrom 1 rows).filter
      (fun p => decide ((page - 1) * pageSize + 1 ≤ p.1) && decide (p.1 ≤ page * pageSize))).map
    Prod.snd

/-- Method 3 (lines 271–296): page 1 is a plain `SELECT TOP page_size`; a
later page orders by the discovered key column, excludes the key values of
the first `(page-1)*page_size` rows in key order with `NOT IN`, and takes
the next `page_size` rows in key order. -/
def topNotInRows [LinearOrder K] (key : ρ → K) (rows : List ρ) (page pageSize : Nat) :
    List ρ :=
  if page = 1 then rows.take pageSize
  else
    let sorted := rows.insertionSort (fun a b => key a ≤ key b)
    let excluded := (sorted.take ((page - 1) * pageSize)).map key
    (((rows.filter (fun r => !decide (key r ∈ excluded))).insertionSort
        (fun a b => key a ≤ key b)).take pageSize)

/-- The value a row's `ORDER BY` column takes; `NULL` (a missing column)
sorts below every value, as `WithBot` does. -/
def rowKey (col : String) (r : DbRow V) : WithBot V :=
  r.lookup col

/-- Embedding of `math.ceil(total_count / page_size)`, the `total_pages`
computation shared by the connectors (mysqlConnector.py line 143,
mssqlConnector.py line 210, mongoDbConnector.py line 168). -/
def totalPages (total_count page_size : Nat) : Nat :=
  ⌈(total_count : ℚ) / (page_size : ℚ)⌉₊

/-- The shape of the dictionary `get_paginated_records` returns. -/
structure PageResult (ρ : Type) where
  records : List ρ
  total_count : Nat
  total_pages : Nat
deriving DecidableEq, Repr

/-- The `records: [], total_count: 0, total_pages: 0` dictionary every
error path of `get_paginated_records` returns. -/
def emptyPage (ρ : Type) : PageResult ρ :=
  ⟨[], 0, 0⟩

/-- Projection of a row to the selected columns (the `SELECT col, …` list);
`none` stands for `SELECT *`. -/
def projectRow (cols : Option (List String)) (r : DbRow V) : DbRow V :=
  match cols with
  | none => r
  | some cs => r.filter (fun e => decide (e.1 ∈ cs))

/-! ### MySQL connector -/

/-- Embedding of `MySQLConnection.get_table_record_count`
(mysqlConnector.py lines 56–70): no connection, an unknown table, or a
backend fault are all caught and become the return value `0`. -/
def mysql_get_table_record_count [DecidableEq V] (c : ConnState V) (t : String) : Nat :=
  if !c.connected then 0
  else
    match validate_table_exists c t with
    | .error _ => 0
    | .ok _ => if c.fault then 0 else (c.db.rowsOf t).length

/-- Embedding of `MySQLConnection.get_paginated_records`
(mysqlConnector.py lines 134–163): count, `total_pages`, optional column
validation, then a `LIMIT %s OFFSET %s` slice; every failure is caught and
becomes the empty page. -/
def mysql_get_paginated_records [DecidableEq V] (c : ConnState V) (t : String)
    (page pageSize : Nat) (columns : Option (List String)) : PageResult (DbRow V) :=
  if !c.connected then emptyPage _
  else
    match validate_table_exists c t with
    | .error _ => emptyPage _
    | .ok _ =>
        if c.fault then emptyPage _
        else
          let rows := c.db.rowsOf t
          let valid := columns.map (fun cs =>
            let v := validate_columns c t cs
            if v.isEmpty then none else some v)
          let proj : Option (List String) := valid.bind id
          { records := (offsetFetchRows rows page pageSize).map (projectRow proj)
            total_count := rows.length
            total_pages := totalPages rows.length pageSize }

/-- Number of rows an MySQL `UPDATE t SET col = v WHERE pk = id` reports as
affected: the rows matching the `WHERE` clause whose stored value actually
changes (the connector's default `rowcount` semantics). -/
def mysqlChangedCount [DecidableEq V] (rows : List (DbRow V)) (pk : String) (id : V)
    (col : String) (v : V) : Nat :=
  (rows.filter (fun r => r.lookup pk == some id && !(r.lookup col == some v))).length

/-- Embedding of `MySQLConnection.update_record` (mysqlConnector.py lines
191–217): validates table and column (raising `ValueError` through the
re-raise in the `except`), runs the `UPDATE`, and returns `False` — not an
exception — when `rowcount` is zero. -/
def mysql_update_record [DecidableEq V] (c : ConnState V) (t : String) (id : V)
    (col : String) (v : V) : Except PyErr Bool :=
  if !c.connected then .ok false
  else
    match validate_table_exists c t with
    | .error e => .error e
    | .ok _ =>
        if (validate_columns c t [col]).isEmpty then .error .valueError
        else if c.fault then .error .dbError
        else
          let pk := primary_key_or_first_column c t "id"
          .ok (decide (0 < mysqlChangedCount (c.db.rowsOf t) pk id col v))

/-- Embedding of `MySQLConnection.delete_record` (mysqlConnector.py lines
260–291): zero rows affected returns `False`; here an exception is caught
and also becomes `False`. -/
def mysql_delete_record [DecidableEq V] (c : ConnState V) (t : String) (id : V) : Bool :=
  if !c.connected then false
  else
    match validate_table_exists c t with
    | .error _ => false
    | .ok _ =>
        if c.fault then false
        else
          let pk := primary_key_or_first_column c t "id"
          decide (0 < matchCount (c.db.rowsOf t) pk id)

/-! ### MSSQL connector -/

/-- Per-request execution flags for the MSSQL pagination fallback chain:
which strategies raise at execution time, and whether the
`SERVERPROPERTY('ProductVersion')` probe raises. -/
structure MsFlags where
  majorVersion : Nat
  versionCheckFails : Bool
  offsetFetchFails : Bool
  rowNumberFails : Bool
  topFails : Bool
deriving DecidableEq, Repr

/-- Embedding of `MSSQLConnection.get_table_record_count`
(mssqlConnector.py lines 77–99): same shape as the MySQL one. -/
def mssql_get_table_record_count [DecidableEq V] (c : ConnState V) (t : String) : Nat :=
  if !c.connected then 0
  else
    match validate_table_exists c t with
    | .error _ => 0
    | .ok _ => if c.fault then 0 else (c.db.rowsOf t).length

/-- The records part of `MSSQLConnection.get_paginated_records`
(lines 232–296): try `OFFSET`/`FETCH` when the server version allows, then
`ROW_NUMBER()`, then the `TOP`/`NOT IN` ordinal fallback; if even that
raises, `records` becomes the empty list. -/
def mssql_records_chain [DecidableEq V] [LinearOrder V] (c : ConnState V) (f : MsFlags)
    (t : String) (page pageSize : Nat) : List (DbRow V) :=
  let rows := c.db.rowsOf t
  let major := if f.versionCheckFails then 0 else f.majorVersion
  if 11 ≤ major && !f.offsetFetchFails then offsetFetchRows rows page pageSize
  else if !f.rowNumberFails then rowNumberRows rows page pageSize
  else if f.topFails then []
  else topNotInRows (rowKey (primary_key_or_first_column c t "ID")) rows page pageSize

/-- Embedding of `MSSQLConnection.get_paginated_records`
(mssqlConnector.py lines 194–309): count and `total_pages` first, then the
fallback chain; any exception of the outer `try` yields the empty page. -/
def mssql_get_paginated_records [DecidableEq V] [LinearOrder V] (c : ConnState V)
    (f : MsFlags) (t : String) (page pageSize : Nat) (columns : Option (List String)) :
    PageResult (DbRow V) :=
  if !c.connected then emptyPage _
  else
    match validate_table_exists c t with
    | .error _ => emptyPage _
    | .ok _ =>
        if c.fault then emptyPage _
        else
          let rows := c.db.rowsOf t
          let valid := columns.map (fun cs =>
            let v := validate_columns c t cs
            if v.isEmpty then none else some v)
          let proj : Option (List String) := valid.bind id
          { records := (mssql_records_chain c f t page pageSize).map (projectRow proj)
            total_count := rows.length
            total_pages := totalPages rows.length pageSize }

/-- Embedding of `MSSQLConnection.update_record` (mssqlConnector.py lines
344–387): zero `rowcount` returns `False`; validation failures and backend
faults re-raise. -/
def mssql_update_record [DecidableEq V] (c : ConnState V) (t : String) (id : V)
    (col : String) : Except PyErr Bool :=
  if !c.connected then .ok false
  else
    match validate_table_exists c t with
    | .error e => .error e
    | .ok _ =>
        if (validate_columns c t [col]).isEmpty then .error .valueError
        else if c.fault then .error .dbError
        else
          let pk := primary_key_or_first_column c t "ID"
          .ok (decide (0 < matchCount (c.db.rowsOf t) pk id))

/-! ### MongoDB connector -/

/-- A document: its identifier and its fields. -/
structure MgDoc (V : Type) where
  id : V
  fields : List (String × V)
deriving DecidableEq, Repr

/-- A collection of documents in insertion order. -/
structure MgColl (V : Type) where
  name : String
  docs : List (MgDoc V)
deriving DecidableEq, Repr

/-- Mongo connection state: `connected` models `self.db` being
non-`None`. -/
structure MgState (V : Type) where
  connected : Bool
  fault : Bool
  colls : List (MgColl V)
deriving DecidableEq, Repr

/-- Lookup of a collection by name. -/
def MgState.findColl (st : MgState V) (t : String) : Option (MgColl V) :=
  st.colls.find? (fun cl => cl.name == t)

/-- The documents of a collection (empty when it is unknown). -/
def MgState.docsOf (st : MgState V) (t : String) : List (MgDoc V) :=
  match st.findColl t with
  | some cl => cl.docs
  | none => []

/-- Embedding of `MongoDBConnection._validate_table_exists`
(mongoDbConnector.py lines 201–214). -/
def mongo_validate_table_exists (st : MgState V) (t : String) : Except PyErr Bool :=
  if st.fault then .error .dbError
  else if (st.findColl t).isSome then .ok true
  else .error .valueError

/-- Embedding of `MongoDBConnection.get_paginated_records`
(mongoDbConnector.py lines 154–199): count, `total_pages`, then a
`skip`/`limit` slice; every failure is caught and becomes the empty
page. -/
def mongo_get_paginated_records [DecidableEq V] (st : MgState V) (t : String)
    (page pageSize : Nat) : PageResult (MgDoc V) :=
  if !st.connected then emptyPage _
  else
    match mongo_validate_table_exists st t with
    | .error _ => emptyPage _
    | .ok _ =>
        if st.fault then emptyPage _
        else
          let docs := st.docsOf t
          { records := offsetFetchRows docs page pageSize
            total_count := docs.length
            total_pages := totalPages docs.length pageSize }

/-- Embedding of `MongoDBConnection.update_record` (mongoDbConnector.py
lines 221–259): `update_one({_id: id}, {$set: {col: v}})` modifies at most
the first matching document, and only when the stored value differs;
`modified_count == 0` returns `False`. -/
def mongo_update_record [DecidableEq V] (st : MgState V) (t : String) (id : V)
    (col : String) (v : V) : Except PyErr Bool :=
  if !st.connected then .ok false
  else
    match mongo_validate_table_exists st t with
    | .error e => .error e
    | .ok _ =>
        if st.fault then .error .dbError
        else
          match (st.docsOf t).find? (fun d => d.id == id) with
          | none => .ok false
          | some d => .ok (!(d.fields.lookup col == some v))

/-! ### Statement text generation

These definitions reproduce, character for character, the statement
strings the source interpolates identifiers into. -/

/-- MySQL-style backquote quoting of an identifier, as used by the
f-strings of `routers/tables.py` and `mysqlConnector.py`. -/
def bq (ident : String) : String :=
  "`" ++ ident ++ "`"

/-- The `', '.join([f'`{col}`' for col in columns])` expression of
`get_selected_columns_records` (routers/tables.py line 159). -/
def router_columns_sql (columns : List String) : String :=
  String.intercalate (", ") (columns.map bq)

/-- The `records_query` f-string of `get_selected_columns_records`
(routers/tables.py line 171): caller-supplied table and column names are
spliced into the text; only `page_size` and `offset` are bound. -/
def router_records_query (table : String) (columns : List String) : String :=
  "SELECT " ++ router_columns_sql columns ++ " FROM " ++ bq table ++
    " LIMIT %s OFFSET %s"

/-- The statement and parameter list `MySQLConnection.create_record` builds
(mysqlConnector.py lines 221–258): keys of the payload whose values are
neither `None` nor empty are spliced into the column list — with no catalog
check — and the values are passed as parameters. -/
def mysql_create_statement (table : String) (data : List (String × String)) :
    String × List String :=
  let filtered := data.filter (fun e => e.2 != "")
  let columns := filtered.map Prod.fst
  let placeholders := String.intercalate (", ") (columns.map (fun _ => "%s"))
  let column_names := String.intercalate (", ") (columns.map bq)
  ("INSERT INTO " ++ bq table ++ " (" ++ column_names ++ ") VALUES (" ++
      placeholders ++ ")",
   filtered.map Prod.snd)

/-- The columns `MSSQLConnection.create_record` (mssqlConnector.py lines
407–450) splices into its `INSERT`: the payload keys surviving
`_validate_columns`. -/
def mssql_create_columns [DecidableEq V] (c : ConnState V) (t : String)
    (data : List (String × String)) : List String :=
  validate_columns c t (data.map Prod.fst)

/-! ### The column-set cache key -/

/-- Embedding of the key built by `cache_selected_columns_records`
(redis_caches.py lines 288–301): the requested column names are sorted,
hashed with Python's process-local `hash`, and the hash is embedded in the
key.  The hash is a parameter: the property proved below holds for every
choice of hash function. -/
def selected_columns_key (pyHash : List String → Int) (session_id table_name : String)
    (columns : List String) (page pageSize : Nat) : String :=
  session_id ++ ":table:" ++ table_name ++ ":selected:" ++
    toString (pyHash (List.insertionSort (fun a b => a ≤ b) columns)) ++
    ":page:" ++ toString page ++ ":size:" ++ toString pageSize

/-! ## Supporting lemmas -/

/-- A lone `*` matches every key. -/
theorem globMatch_star_any (k : List Char) : globMatch ['*'] k = true := by
  have h : ([] : List Char) ∈ k.tails := by simp [List.mem_tails]
  simp only [globMatch]
  rw [if_pos (by decide), List.any_eq_true]
  exact ⟨[], h, rfl⟩

/-- Matching a literal text followed by `*` is exactly the prefix test. -/
theorem globMatch_append_star :
    ∀ {p : List Char}, noGlobChars p = true → ∀ (k : List Char),
      (globMatch (p ++ ['*']) k = true ↔ p <+: k)
  | [], _, k => by
      simp [globMatch_star_any k]
  | a :: p, hp, k => by
      have hp' : noGlobChars p = true := by
        simp only [noGlobChars, List.all_cons, Bool.and_eq_true] at hp
        exact hp.2
      have ha : (a == '*') = false ∧ (a == '?') = false := by
        simp only [noGlobChars, List.all_cons, Bool.and_eq_true, Bool.not_eq_true',
          Bool.or_eq_false_iff] at hp
        exact ⟨hp.1.1.1.1, hp.1.1.1.2⟩
      cases k with
      | nil =>
          simp [globMatch, ha.1]
      | cons c k' =>
          have ih := globMatch_append_star hp' k'
          simp [globMatch, ha.1, ha.2, List.cons_prefix_cons, ih, beq_iff_eq]

/-- Entries survive `invalidateGo` only if they were in the original store:
the loop deletes and never inserts. -/
theorem invalidateGo_entries_subset {V} :
    ∀ (pats : List String) (st : RedisState V) (acc n : Nat) (st' : RedisState V),
      invalidateGo st pats acc = .ok (n, st') → ∀ e ∈ st'.entries, e ∈ st.entries := by
  intro pats
  induction pats with
  | nil =>
      intro st acc n st' h e he
      simp only [invalidateGo, Except.ok.injEq, Prod.mk.injEq] at h
      rw [h.2]
      exact he
  | cons pat pats ih =>
      intro st acc n st' h e he
      unfold invalidateGo at h
      split at h
      · exact absurd h (by simp)
      · split at h
        · exact ih st acc n st' h e he
        · split at h
          · exact absurd h (by simp)
          · rename_i ks _ _ m st1 heq
            have he1 := ih st1 _ _ _ h e he
            unfold redisDeleteMany at heq
            split at heq
            · exact absurd heq (by simp)
            · simp only [Except.ok.injEq, Prod.mk.injEq] at heq
              rw [← heq.2] at he1
              exact List.mem_of_mem_filter he1

/-- When the store is healthy `invalidateGo` never raises, and the store it
returns is still healthy. -/
theorem invalidateGo_ok_of_not_faulty {V} :
    ∀ (pats : List String) (st : RedisState V) (acc : Nat), st.faulty = false →
      ∃ n st', invalidateGo st pats acc = .ok (n, st') ∧ st'.faulty = false := by
  intro pats
  induction pats with
  | nil =>
      intro st acc hf
      exact ⟨acc, st, rfl, hf⟩
  | cons pat pats ih =>
      intro st acc hf
      have hks : redisKeys st pat =
          .ok ((st.entries.map Prod.fst).filter (fun k => globMatch pat.data k.data)) := by
        simp [redisKeys, hf]
      by_cases hke :
          ((st.entries.map Prod.fst).filter (fun k => globMatch pat.data k.data)).isEmpty
      · obtain ⟨n, st', h, hf'⟩ := ih st acc hf
        refine ⟨n, st', ?_, hf'⟩
        unfold invalidateGo
        rw [hks]
        simp only [hke, if_true]
        exact h
      · set ks := (st.entries.map Prod.fst).filter (fun k => globMatch pat.data k.data) with hksdef
        have hdel : redisDeleteMany st ks =
            .ok ((st.entries.filter (fun e => decide (e.1 ∈ ks))).length,
                 { st with entries := st.entries.filter (fun e => !decide (e.1 ∈ ks)) }) := by
          simp [redisDeleteMany, hf]
        obtain ⟨n, st', h, hf'⟩ :=
          ih { st with entries := st.entries.filter (fun e => !decide (e.1 ∈ ks)) }
            (acc + (st.entries.filter (fun e => decide (e.1 ∈ ks))).length) hf
        refine ⟨n, st', ?_, hf'⟩
        unfold invalidateGo
        rw [hks]
        simp only [hke, if_false]
        rw [hdel]
        exact h

/-- After `invalidateGo` has processed its first pattern, no surviving key
matches that pattern — later iterations only delete further keys. -/
theorem invalidateGo_clears_head {V} (st : RedisState V) (pat1 : String)
    (pats : List String) (acc : Nat) (hf : st.faulty = false) :
    ∀ n st', invalidateGo st (pat1 :: pats) acc = .ok (n, st') →
      ∀ e ∈ st'.entries, globMatch pat1.data e.1.data = false := by
  intro n st' h e he
  have hks : redisKeys st pat1 =
      .ok ((st.entries.map Prod.fst).filter (fun k => globMatch pat1.data k.data)) := by
    simp [redisKeys, hf]
  unfold invalidateGo at h
  rw [hks] at h
  set ks := (st.entries.map Prod.fst).filter (fun k => globMatch pat1.data k.data) with hksdef
  by_cases hke : ks.isEmpty
  · simp only [hke, if_true] at h
    have hmem := invalidateGo_entries_subset pats st acc n st' h e he
    have hnil : ks = [] := by
      cases hksν : ks
      · rfl
      · rw [hksν] at hke; simp at hke
    by_contra hgm
    have : e.1 ∈ ks := by
      rw [hksdef]
      exact List.mem_filter.mpr ⟨List.mem_map_of_mem Prod.fst hmem, by
        simpa using hgm⟩
    rw [hnil] at this
    exact absurd this (by simp)
  · simp only [hke, if_false] at h
    have hdel : redisDeleteMany st ks =
        .ok ((st.entries.filter (fun e => decide (e.1 ∈ ks))).length,
             { st with entries := st.entries.filter (fun e => !decide (e.1 ∈ ks)) }) := by
      simp [redisDeleteMany, hf]
    rw [hdel] at h
    have he1 := invalidateGo_entries_subset pats _ _ n st' h e he
    simp only [List.mem_filter, Bool.not_eq_true', decide_eq_false_iff_not] at he1
    by_contra hgm
    exact he1.2 (by
      rw [hksdef]
      exact List.mem_filter.mpr ⟨List.mem_map_of_mem Prod.fst he1.1, by simpa using hgm⟩)

/-- The session+table namespace text is glob-free when the session id and
table name are. -/
theorem noGlob_tableNs {s t : String} (hs : noGlobStr s = true) (ht : noGlobStr t = true) :
    noGlobStr (tableNs s t) = true := by
  simp only [noGlobStr, noGlobChars] at hs ht ⊢
  simp only [tableNs, String.data_append, List.all_append, Bool.and_eq_true]
  exact ⟨⟨⟨hs, by decide⟩, ht⟩, by decide⟩

/-- On a healthy store, `invalidate_table_cache` leaves no entry whose key
starts with the session+table namespace. -/
theorem invalidate_clears_ns {V} (st : RedisState V) (s t : String)
    (hf : st.faulty = false) (hs : noGlobStr s = true) (ht : noGlobStr t = true) :
    ((invalidate_table_cache st s t).2.entries.filter
      (fun e => (tableNs s t).data.isPrefixOf e.1.data)) = [] := by
  obtain ⟨n, st', heq, -⟩ :=
    invalidateGo_ok_of_not_faulty (tablePatterns s t) st 0 hf
  have hres : invalidate_table_cache st s t = (n, st') := by
    unfold invalidate_table_cache
    rw [heq]
  have hclear := invalidateGo_clears_head st (tableNs s t ++ "*")
    (tablePatterns s t).tail 0 hf n st' heq
  rw [hres]
  rw [List.filter_eq_nil_iff]
  intro e he hpre
  have hdata : (tableNs s t ++ "*").data = (tableNs s t).data ++ ['*'] := by
    rw [String.data_append]
  have hmatch := hclear e he
  rw [hdata] at hmatch
  have := (globMatch_append_star (noGlob_tableNs hs ht) e.1.data).mpr
    (List.isPrefixOf_iff_prefix.mp hpre)
  rw [this] at hmatch
  exact absurd hmatch (by simp)

/-! ## C1 -/

/-- Step store holding one namespace entry for table `t` in session `s`,
with exactly one primitive call left before the client faults: the `KEYS`
call of the invalidation loop succeeds and the following `DELETE`
raises mid-loop. -/
def wStepStore : RedisStepState Nat :=
  ⟨[(("s:table:t:count" : String), Payload.json 7)], 1⟩

/-- C1 counterexample: a cache-store fault that strikes mid-way through
the invalidation loop — after the `KEYS` call, at the `DELETE` — is
swallowed by `invalidate_table_cache`'s `except` block, and the update
handler still reports `success = true` while the entry prefixed by the
session+table namespace is still in the cache: the write reports success
without the namespace having been invalidated. -/
theorem write_invalidation_fault_cex :
    (update_table_record_step (.ok true) wStepStore "s" "t").1 = ⟨true, 200⟩ ∧
      (update_table_record_step (.ok true) wStepStore "s" "t").2.entries =
        [(("s:table:t:count" : String), Payload.json 7)] ∧
      (tableNs "s" "t").data.isPrefixOf ("s:table:t:count" : String).data = true := by
  decide

/-- C1 amended: on a healthy cache store (and glob-free session and table
names), for every successful write (insert, update or delete) on table `t`
in session `s`, every cache entry whose key starts with the `s:table:t:`
namespace has been removed in the cache state that exists when the handler
returns its success response; a response with `success = true` is built
only after `invalidate_table_cache` has run, and on a healthy store the
invalidation removes every key of the namespace, not a subset.  When the
cache store faults during the invalidation, the fault is swallowed and the
handler reports success anyway, with namespace entries still present — the
counterexample above. -/
theorem write_ops_invalidate_namespace {V} (st : RedisState V) (s t : String)
    (ru rd : Except Unit Bool) (rc : Except Unit (Option Nat))
    (hf : st.faulty = false) (hs : noGlobStr s = true) (ht : noGlobStr t = true) :
    ((update_table_record ru st s t).1.success = true →
      ((update_table_record ru st s t).2.entries.filter
        (fun e => (tableNs s t).data.isPrefixOf e.1.data)) = []) ∧
    ((delete_single_record rd st s t).1.success = true →
      ((delete_single_record rd st s t).2.entries.filter
        (fun e => (tableNs s t).data.isPrefixOf e.1.data)) = []) ∧
    ((create_table_record rc st s t).1.success = true →
      ((create_table_record rc st s t).2.entries.filter
        (fun e => (tableNs s t).data.isPrefixOf e.1.data)) = []) := by
  refine ⟨?_, ?_, ?_⟩
  · intro hsucc
    match ru with
    | .error _ => simp [update_table_record] at hsucc
    | .ok false => simp [update_table_record] at hsucc
    | .ok true =>
        show (((invalidate_table_cache st s t).2).entries.filter _) = []
        exact invalidate_clears_ns st s t hf hs ht
  · intro hsucc
    match rd with
    | .error _ => simp [delete_single_record] at hsucc
    | .ok false => simp [delete_single_record] at hsucc
    | .ok true =>
        show (((invalidate_table_cache st s t).2).entries.filter _) = []
        exact invalidate_clears_ns st s t hf hs ht
  · intro hsucc
    match rc with
    | .error _ => simp [create_table_record] at hsucc
    | .ok rid =>
        by_cases hr : truthyId rid = true
        · have hcr : create_table_record (.ok rid) st s t =
              (⟨true, 200⟩, (invalidate_table_cache st s t).2) := by
            simp [create_table_record, hr]
          rw [hcr]
          exact invalidate_clears_ns st s t hf hs ht
        · simp [create_table_record, hr] at hsucc

/-- Concrete store used by several witnesses: one cached count entry for
table `tbl` in session `sess`, healthy store. -/
def wStore : RedisState Nat :=
  ⟨[(("sess:table:tbl:count" : String), Payload.json 7)], false⟩

/-- Witness for C1 at a concrete store, session and table, with a
successful update, delete and insert. -/
theorem write_ops_invalidate_namespace_witness :
    RedisState.faulty wStore = false ∧ noGlobStr ("sess") = true ∧
      noGlobStr ("tbl") = true ∧
      (((update_table_record (.ok true) wStore "sess" "tbl").1.success = true →
        ((update_table_record (.ok true) wStore "sess" "tbl").2.entries.filter
          (fun e => (tableNs "sess" "tbl").data.isPrefixOf e.1.data)) = []) ∧
      ((delete_single_record (.ok true) wStore "sess" "tbl").1.success = true →
        ((delete_single_record (.ok true) wStore "sess" "tbl").2.entries.filter
          (fun e => (tableNs "sess" "tbl").data.isPrefixOf e.1.data)) = []) ∧
      ((create_table_record (.ok (some 5)) wStore "sess" "tbl").1.success = true →
        ((create_table_record (.ok (some 5)) wStore "sess" "tbl").2.entries.filter
          (fun e => (tableNs "sess" "tbl").data.isPrefixOf e.1.data)) = [])) :=
  ⟨rfl, by decide, by decide,
    write_ops_invalidate_namespace wStore "sess" "tbl" (.ok true) (.ok true)
      (.ok (some 5)) rfl (by decide) (by decide)⟩

/-! ## C5 -/

/-- Explicit faulty store with one namespace entry, used to exercise the
fault-handling paths. -/
def wFaultyStore : RedisState Nat :=
  ⟨[(("s:table:t:count" : String), Payload.json 7)], true⟩

/-- C5 counterexample: `invalidate_table_cache` wraps its whole body in
`try`/`except` and returns `0` on any cache-store fault, so a fault during
write-path invalidation does not propagate — contrary to the claim.  At
this concrete faulty store the invalidation returns `0` without raising,
and the update handler still answers `success = true` while the stale
namespace entry is left in the cache. -/
theorem invalidation_fault_swallowed_cex :
    RedisState.faulty wFaultyStore = true ∧
      invalidate_table_cache wFaultyStore "s" "t" = (0, wFaultyStore) ∧
      (update_table_record (.ok true) wFaultyStore "s" "t").1 = ⟨true, 200⟩ ∧
      (update_table_record (.ok true) wFaultyStore "s" "t").2.entries =
        [(("s:table:t:count" : String), Payload.json 7)] := by
  refine ⟨rfl, ?_, ?_, ?_⟩ <;>
    simp [invalidate_table_cache, update_table_record, tablePatterns, invalidateGo,
      redisKeys, wFaultyStore]

/-- C5 amended: cache-store faults never propagate on either path — a read
fault degrades to a cache miss, and a write-path invalidation fault is
caught, logged and turned into the return value `0`, after which the write
handler still reports success. -/
theorem cache_faults_never_propagate {V} (st : RedisState V) (key s t : String)
    (hf : st.faulty = true) :
    get_cache st key = (none, st) ∧
      invalidate_table_cache st s t = (0, st) ∧
      (update_table_record (.ok true) st s t).1.success = true := by
  refine ⟨?_, ?_, ?_⟩
  · simp [get_cache, redisGet, hf]
  · simp [invalidate_table_cache, tablePatterns, invalidateGo, redisKeys, hf]
  · simp [update_table_record, invalidate_table_cache, tablePatterns, invalidateGo,
      redisKeys, hf]

/-- Witness for the amended C5 at the concrete faulty store. -/
theorem cache_faults_never_propagate_witness :
    RedisState.faulty wFaultyStore = true ∧
      (get_cache wFaultyStore "s:table:t:count" = (none, wFaultyStore) ∧
        invalidate_table_cache wFaultyStore "s" "t" = (0, wFaultyStore) ∧
        (update_table_record (.ok true) wFaultyStore "s" "t").1.success = true) :=
  ⟨rfl, cache_faults_never_propagate wFaultyStore "s:table:t:count" "s" "t" rfl⟩

/-! ## C8 -/

/-- Looking a key up after filtering out every binding for it finds
nothing. -/
theorem lookup_filter_self_none {β} (k : String) :
    ∀ (l : List (String × β)), (l.filter (fun e => !(e.1 == k))).lookup k = none := by
  intro l
  induction l with
  | nil => simp
  | cons e l ih =>
      obtain ⟨a, b⟩ := e
      by_cases hek : a = k
      · simp [List.filter_cons, hek, ih]
      · have h1 : (a == k) = false := by simp [hek]
        have h2 : (k == a) = false := by simp [Ne.symm hek]
        rw [List.filter_cons]
        simp only [h1, Bool.not_false, if_pos]
        rw [List.lookup_cons]
        simp only [h2]
        exact ih

/-- Concrete store holding an empty-string payload under key `k`. -/
def wEmptyStore : RedisState Nat :=
  ⟨[(("k" : String), Payload.empty)], false⟩

/-- C8 counterexample: the empty string is a stored payload `json.loads`
rejects, yet `get_cache` tests `if value:` first, so for an empty payload
it returns absent **without deleting the key** — the claim's "deletes K"
fails at this input (no error is raised, and the entry survives). -/
theorem corrupt_empty_payload_not_deleted_cex :
    get_cache wEmptyStore "k" = (none, wEmptyStore) ∧
      wEmptyStore.entries.lookup "k" = some Payload.empty := by
  constructor
  · simp [get_cache, redisGet, wEmptyStore]
  · simp [wEmptyStore]

/-- C8 amended: on a healthy store, a stored payload that is a non-empty
string `json.loads` rejects makes `get_cache` return absent and delete the
key (the subsequent lookup misses); an empty stored payload returns absent
but is left in place; no deserialization error reaches the caller in
either case. -/
theorem get_cache_self_heals_corrupt {V} (st : RedisState V) (k : String)
    (hf : st.faulty = false) :
    (∀ s', st.entries.lookup k = some (.bad s') →
      (get_cache st k).1 = none ∧
        (get_cache st k).2.entries = st.entries.filter (fun e => !(e.1 == k)) ∧
        (get_cache st k).2.entries.lookup k = none) ∧
    (st.entries.lookup k = some Payload.empty → get_cache st k = (none, st)) := by
  constructor
  · intro s' hlk
    have hget : get_cache st k =
        (none, { st with entries := st.entries.filter (fun e => !(e.1 == k)) }) := by
      simp [get_cache, redisGet, redisDelete, hf, hlk]
    rw [hget]
    exact ⟨rfl, rfl, lookup_filter_self_none k st.entries⟩
  · intro hlk
    simp [get_cache, redisGet, hf, hlk]

/-- Concrete store holding a non-empty undeserializable payload. -/
def wBadStore : RedisState Nat :=
  ⟨[(("k" : String), Payload.bad "not json"), (("other" : String), Payload.json 3)], false⟩

/-- Witness for the amended C8 at the concrete corrupted store. -/
theorem get_cache_self_heals_corrupt_witness :
    RedisState.faulty wBadStore = false ∧
      wBadStore.entries.lookup "k" = some (Payload.bad "not json") ∧
      ((get_cache wBadStore "k").1 = none ∧
        (get_cache wBadStore "k").2.entries =
          wBadStore.entries.filter (fun e => !(e.1 == "k")) ∧
        (get_cache wBadStore "k").2.entries.lookup "k" = none) :=
  ⟨rfl, by decide,
    (get_cache_self_heals_corrupt wBadStore "k" rfl).1 "not json" (by decide)⟩

/-! ## C9 -/

/-- Two duplicate-free lists of strings with the same members sort to the
same list. -/
theorem sort_eq_of_same_members {c1 c2 : List String} (h1 : c1.Nodup) (h2 : c2.Nodup)
    (m1 : ∀ x ∈ c1, x ∈ c2) (m2 : ∀ x ∈ c2, x ∈ c1) :
    List.insertionSort (fun a b => a ≤ b) c1 =
      List.insertionSort (fun a b => a ≤ b) c2 := by
  have hp : c1.Perm c2 :=
    (List.perm_ext_iff_of_nodup h1 h2).mpr (fun a => ⟨m1 a, m2 a⟩)
  exact List.eq_of_perm_of_sorted
    (((List.perm_insertionSort _ c1).trans hp).trans
      (List.perm_insertionSort _ c2).symm)
    (List.sorted_insertionSort _ c1) (List.sorted_insertionSort _ c2)

/-- C9: the column-set cache key sorts the requested column names before
hashing, so two duplicate-free requests for the same set of columns in any
orders produce the identical key, for every choice of the hash function. -/
theorem selected_columns_key_order_independent (pyHash : List String → Int)
    (s t : String) (c1 c2 : List String) (page pageSize : Nat)
    (h1 : c1.Nodup) (h2 : c2.Nodup)
    (m1 : ∀ x ∈ c1, x ∈ c2) (m2 : ∀ x ∈ c2, x ∈ c1) :
    selected_columns_key pyHash s t c1 page pageSize =
      selected_columns_key pyHash s t c2 page pageSize := by
  unfold selected_columns_key
  rw [sort_eq_of_same_members h1 h2 m1 m2]

/-- Witness for C9: the same two columns in both orders yield the same key
under a concrete hash function. -/
theorem selected_columns_key_order_independent_witness :
    (["name", "id"] : List String).Nodup ∧ (["id", "name"] : List String).Nodup ∧
      (∀ x ∈ (["name", "id"] : List String), x ∈ (["id", "name"] : List String)) ∧
      (∀ x ∈ (["id", "name"] : List String), x ∈ (["name", "id"] : List String)) ∧
      selected_columns_key (fun l => (l.length : Int)) "sess" "tbl" ["name", "id"] 1 50 =
        selected_columns_key (fun l => (l.length : Int)) "sess" "tbl" ["id", "name"] 1 50 :=
  ⟨by decide, by decide, by decide, by decide,
    selected_columns_key_order_independent (fun l => (l.length : Int)) "sess" "tbl"
      ["name", "id"] ["id", "name"] 1 50 (by decide) (by decide) (by decide) (by decide)⟩

/-! ## Pagination window lemmas -/

/-- Filtering numbered rows to an index window is a `drop`/`take` slice. -/
theorem numberFrom_filter_window {ρ} :
    ∀ (rows : List ρ) (s lo hi : Nat),
      ((numberFrom s rows).filter
          (fun p => decide (lo ≤ p.1) && decide (p.1 ≤ hi))).map Prod.snd =
        (rows.drop (lo - s)).take (hi + 1 - max lo s) := by
  intro rows
  induction rows with
  | nil => intro s lo hi; simp [numberFrom]
  | cons r rs ih =>
      intro s lo hi
      rw [numberFrom, List.filter_cons]
      by_cases hlo : lo ≤ s
      · by_cases hhi : s ≤ hi
        · rw [if_pos (by simp [hlo, hhi]), List.map_cons, ih (s + 1) lo hi]
          have hls : lo - s = 0 := by omega
          have hls' : lo - (s + 1) = 0 := by omega
          have hmax : max lo s = s := by omega
          have hmax' : max lo (s + 1) = s + 1 := by omega
          have htk : hi + 1 - s = (hi - s) + 1 := by omega
          have htk' : hi + 1 - (s + 1) = hi - s := by omega
          rw [hls, hls', hmax, hmax', htk, htk', List.drop_zero, List.drop_zero,
            List.take_succ_cons]
        · rw [if_neg (by simp [hhi]), ih (s + 1) lo hi]
          have h1 : hi + 1 - max lo (s + 1) = 0 := by omega
          have h2 : hi + 1 - max lo s = 0 := by omega
          rw [h1, h2, List.take_zero, List.take_zero]
      · rw [if_neg (by simp [hlo]), ih (s + 1) lo hi]
        have h1 : lo - s = (lo - (s + 1)) + 1 := by omega
        have h2 : max lo s = max lo (s + 1) := by omega
        rw [h1, h2, List.drop_succ_cons]

/-- The `ROW_NUMBER()` window strategy returns exactly the `OFFSET`/`FETCH`
slice, for every table and every page ≥ 1. -/
theorem rowNumber_eq_offsetFetch {ρ} (rows : List ρ) (page ps : Nat) (hp : 1 ≤ page) :
    rowNumberRows rows page ps = offsetFetchRows rows page ps := by
  unfold rowNumberRows offsetFetchRows
  rw [numberFrom_filter_window rows 1 ((page - 1) * ps + 1) (page * ps)]
  have hmul : page * ps = (page - 1) * ps + ps := by
    cases page with
    | zero => omega
    | succ n => simp [Nat.succ_sub_one, Nat.succ_mul]
  have h1 : (page - 1) * ps + 1 - 1 = (page - 1) * ps := by omega
  have h2 : max ((page - 1) * ps + 1) 1 = (page - 1) * ps + 1 := by omega
  have h3 : page * ps + 1 - ((page - 1) * ps + 1) = ps := by omega
  rw [h1, h2, h3]

/-- When the physical row order already agrees with the strict order of the
discovered key column, the `TOP`/`NOT IN` ordinal fallback also returns the
`OFFSET`/`FETCH` slice. -/
theorem topNotIn_eq_offsetFetch {ρ K} [LinearOrder K] (key : ρ → K) (rows : List ρ)
    (page ps : Nat) (hs : (rows.map key).Sorted (· < ·)) :
    topNotInRows key rows page ps = offsetFetchRows rows page ps := by
  by_cases hp1 : page = 1
  · unfold topNotInRows offsetFetchRows
    simp [hp1]
  · unfold topNotInRows offsetFetchRows
    rw [if_neg hp1]
    dsimp only
    have hpl : rows.Pairwise (fun a b => key a < key b) := (List.pairwise_map).mp hs
    have hsle : List.Sorted (fun a b => key a ≤ key b) rows :=
      hpl.imp (fun h => le_of_lt h)
    have hsort : rows.insertionSort (fun a b => key a ≤ key b) = rows :=
      hsle.insertionSort_eq
    rw [hsort]
    have hnd : (rows.map key).Nodup := hs.nodup
    have hsplit : rows.map key =
        (rows.take ((page - 1) * ps)).map key ++ (rows.drop ((page - 1) * ps)).map key := by
      conv_lhs => rw [← List.take_append_drop ((page - 1) * ps) rows]
      rw [List.map_append]
    rw [hsplit] at hnd
    have hdisj := (List.nodup_append.mp hnd).2.2
    set E := (rows.take ((page - 1) * ps)).map key with hE
    have hA : (rows.take ((page - 1) * ps)).filter
        (fun r => !decide (key r ∈ E)) = [] := by
      rw [List.filter_eq_nil_iff]
      intro a ha
      have hm : key a ∈ E := by
        rw [hE]
        exact List.mem_map_of_mem key ha
      simp only [decide_eq_true hm, Bool.not_true]
      simp
    have hB : (rows.drop ((page - 1) * ps)).filter
        (fun r => !decide (key r ∈ E)) = rows.drop ((page - 1) * ps) := by
      rw [List.filter_eq_self]
      intro a ha
      have hmem : key a ∈ (rows.drop ((page - 1) * ps)).map key :=
        List.mem_map_of_mem key ha
      have hnmem : ¬ key a ∈ E := fun hx => hdisj hx hmem
      simp only [decide_eq_false hnmem, Bool.not_false]
    have hfil : rows.filter (fun r => !decide (key r ∈ E)) =
        rows.drop ((page - 1) * ps) := by
      conv_lhs => rw [← List.take_append_drop ((page - 1) * ps) rows]
      rw [List.filter_append, hA, hB, List.nil_append]
    rw [hfil]
    have hsuffix : List.Sorted (fun a b => key a ≤ key b)
        (rows.drop ((page - 1) * ps)) :=
      List.Pairwise.sublist (List.drop_sublist ((page - 1) * ps) rows) hsle
    rw [hsuffix.insertionSort_eq]

/-! ## C2 -/

/-- C2 counterexample: on the two-row table whose physical order `[2, 1]`
disagrees with the key order, page 2 of size 1 contains row `1` under
`OFFSET`/`FETCH` and `ROW_NUMBER()` (which page in enumeration order) but
row `2` under the ordinal `TOP`/`NOT IN` fallback (which pages in key
order) — the strategies do not return the same row set. -/
theorem pagination_strategies_equiv_cex :
    offsetFetchRows [2, 1] 2 1 = ([1] : List Nat) ∧
      rowNumberRows [2, 1] 2 1 = ([1] : List Nat) ∧
      topNotInRows (fun k : Nat => k) [2, 1] 2 1 = ([2] : List Nat) ∧
      ¬ ((1 : Nat) ∈ topNotInRows (fun k : Nat => k) [2, 1] 2 1 ↔
          (1 : Nat) ∈ offsetFetchRows [2, 1] 2 1) := by
  decide

/-- C2 amended: for every page ≥ 1 the `OFFSET`/`FETCH` and `ROW_NUMBER()`
strategies return literally the same rows, and the `TOP`/`NOT IN` ordinal
fallback returns the same rows whenever the table's stored order agrees
with the strict order of the ordering column (in particular the ordering
column's values must be pairwise distinct); without that agreement the
fallback may return a different row set, as the counterexample shows. -/
theorem pagination_strategies_equiv {ρ K} [LinearOrder K] (key : ρ → K)
    (rows : List ρ) (page ps : Nat) (hp : 1 ≤ page) :
    rowNumberRows rows page ps = offsetFetchRows rows page ps ∧
      ((rows.map key).Sorted (· < ·) →
        topNotInRows key rows page ps = offsetFetchRows rows page ps) :=
  ⟨rowNumber_eq_offsetFetch rows page ps hp,
   fun hs => topNotIn_eq_offsetFetch key rows page ps hs⟩

/-- Witness for the amended C2 on a concrete key-sorted table. -/
theorem pagination_strategies_equiv_witness :
    (1 : Nat) ≤ 2 ∧
      rowNumberRows [10, 20, 30] 2 1 = offsetFetchRows ([10, 20, 30] : List Nat) 2 1 ∧
      topNotInRows (fun k : Nat => k) [10, 20, 30] 2 1 =
        offsetFetchRows ([10, 20, 30] : List Nat) 2 1 :=
  ⟨by decide,
   (pagination_strategies_equiv (fun k : Nat => k) [10, 20, 30] 2 1 (by decide)).1,
   (pagination_strategies_equiv (fun k : Nat => k) [10, 20, 30] 2 1 (by decide)).2
     (by decide)⟩

/-! ## Page-count lemmas -/

/-- An empty table has zero pages. -/
theorem totalPages_zero (ps : Nat) : totalPages 0 ps = 0 := by
  simp [totalPages]

/-- Every MySQL paginate result carries `total_pages = totalPages
total_count page_size`: success computes it that way and every error path
returns the `0/0` pair. -/
theorem mysql_paginate_pages_eq {V} [DecidableEq V] (c : ConnState V) (t : String)
    (page ps : Nat) (cols : Option (List String)) :
    (mysql_get_paginated_records c t page ps cols).total_pages =
      totalPages (mysql_get_paginated_records c t page ps cols).total_count ps := by
  unfold mysql_get_paginated_records
  split
  · simp [emptyPage, totalPages_zero]
  · split
    · simp [emptyPage, totalPages_zero]
    · split
      · simp [emptyPage, totalPages_zero]
      · rfl

/-- Same fact for the MSSQL connector. -/
theorem mssql_paginate_pages_eq {V} [DecidableEq V] [LinearOrder V] (c : ConnState V)
    (f : MsFlags) (t : String) (page ps : Nat) (cols : Option (List String)) :
    (mssql_get_paginated_records c f t page ps cols).total_pages =
      totalPages (mssql_get_paginated_records c f t page ps cols).total_count ps := by
  unfold mssql_get_paginated_records
  split
  · simp [emptyPage, totalPages_zero]
  · split
    · simp [emptyPage, totalPages_zero]
    · split
      · simp [emptyPage, totalPages_zero]
      · rfl

/-- Same fact for the MongoDB connector. -/
theorem mongo_paginate_pages_eq {V} [DecidableEq V] (mg : MgState V) (t : String)
    (page ps : Nat) :
    (mongo_get_paginated_records mg t page ps).total_pages =
      totalPages (mongo_get_paginated_records mg t page ps).total_count ps := by
  unfold mongo_get_paginated_records
  split
  · simp [emptyPage, totalPages_zero]
  · split
    · simp [emptyPage, totalPages_zero]
    · split
      · simp [emptyPage, totalPages_zero]
      · rfl

/-! ## C6 -/

/-- C6: every paginate result of the MySQL, MSSQL and MongoDB connectors
satisfies `total_pages = ⌈total_count / page_size⌉` for page_size ≥ 1, and
in particular `total_count = 0` gives `total_pages = 0` — also on the error
paths, which return the consistent `0/0` pair. -/
theorem total_pages_is_ceil {V} [DecidableEq V] [LinearOrder V] (c : ConnState V)
    (f : MsFlags) (mg : MgState V) (t : String) (page ps : Nat)
    (cols : Option (List String)) (hps : 1 ≤ ps) :
    ((mysql_get_paginated_records c t page ps cols).total_pages =
        ⌈((mysql_get_paginated_records c t page ps cols).total_count : ℚ) / (ps : ℚ)⌉₊ ∧
      ((mysql_get_paginated_records c t page ps cols).total_count = 0 →
        (mysql_get_paginated_records c t page ps cols).total_pages = 0)) ∧
    ((mssql_get_paginated_records c f t page ps cols).total_pages =
        ⌈((mssql_get_paginated_records c f t page ps cols).total_count : ℚ) / (ps : ℚ)⌉₊ ∧
      ((mssql_get_paginated_records c f t page ps cols).total_count = 0 →
        (mssql_get_paginated_records c f t page ps cols).total_pages = 0)) ∧
    ((mongo_get_paginated_records mg t page ps).total_pages =
        ⌈((mongo_get_paginated_records mg t page ps).total_count : ℚ) / (ps : ℚ)⌉₊ ∧
      ((mongo_get_paginated_records mg t page ps).total_count = 0 →
        (mongo_get_paginated_records mg t page ps).total_pages = 0)) := by
  have h1 := mysql_paginate_pages_eq c t page ps cols
  have h2 := mssql_paginate_pages_eq c f t page ps cols
  have h3 := mongo_paginate_pages_eq mg t page ps
  refine ⟨⟨?_, ?_⟩, ⟨?_, ?_⟩, ⟨?_, ?_⟩⟩
  · rw [h1]; rfl
  · intro h0; rw [h1, h0, totalPages_zero]
  · rw [h2]; rfl
  · intro h0; rw [h2, h0, totalPages_zero]
  · rw [h3]; rfl
  · intro h0; rw [h3, h0, totalPages_zero]

/-- Concrete MSSQL execution flags: modern server, no per-statement
failures. -/
def fDefault : MsFlags := ⟨11, false, false, false, false⟩

/-- Concrete connector states for witnesses: one table `users` with one
row, and one empty table `ghost`. -/
def cNoGhost : ConnState Nat :=
  ⟨true, false, ⟨[⟨"users", ["id"], some "id", [[("id", 1)]]⟩]⟩⟩

/-- Connector state whose only table `ghost` exists but has no rows. -/
def cEmptyGhost : ConnState Nat :=
  ⟨true, false, ⟨[⟨"ghost", ["id"], some "id", []⟩]⟩⟩

/-- Concrete Mongo state for witnesses. -/
def mgOneDoc : MgState Nat := ⟨true, false, [⟨"users", [⟨1, [("v", 2)]⟩]⟩]⟩

/-- Witness for C6 at a concrete connector state and page size. -/
theorem total_pages_is_ceil_witness :
    (1 : Nat) ≤ 50 ∧
      (((mysql_get_paginated_records cNoGhost "users" 1 50 none).total_pages =
          ⌈((mysql_get_paginated_records cNoGhost "users" 1 50 none).total_count : ℚ) /
            (50 : ℚ)⌉₊ ∧
        ((mysql_get_paginated_records cNoGhost "users" 1 50 none).total_count = 0 →
          (mysql_get_paginated_records cNoGhost "users" 1 50 none).total_pages = 0)) ∧
      ((mssql_get_paginated_records cNoGhost fDefault "users" 1 50 none).total_pages =
          ⌈((mssql_get_paginated_records cNoGhost fDefault "users" 1 50 none).total_count :
              ℚ) / (50 : ℚ)⌉₊ ∧
        ((mssql_get_paginated_records cNoGhost fDefault "users" 1 50 none).total_count = 0 →
          (mssql_get_paginated_records cNoGhost fDefault "users" 1 50 none).total_pages =
            0)) ∧
      ((mongo_get_paginated_records mgOneDoc "users" 1 50).total_pages =
          ⌈((mongo_get_paginated_records mgOneDoc "users" 1 50).total_count : ℚ) /
            (50 : ℚ)⌉₊ ∧
        ((mongo_get_paginated_records mgOneDoc "users" 1 50).total_count = 0 →
          (mongo_get_paginated_records mgOneDoc "users" 1 50).total_pages = 0))) :=
  ⟨by decide,
   total_pages_is_ceil cNoGhost fDefault mgOneDoc "users" 1 50 none (by decide)⟩

/-! ## Error-default lemmas for the relational connectors -/

/-- `MySQLConnection.get_table_record_count` returns `0` whenever there is
no connection, the backend faults, the table is unknown, or the table is
genuinely empty. -/
theorem mysql_count_zero_cases {V} [DecidableEq V] (c : ConnState V) (t : String)
    (h : c.connected = false ∨ c.fault = true ∨ c.db.findTable t = none ∨
      c.db.rowsOf t = []) :
    mysql_get_table_record_count c t = 0 := by
  unfold mysql_get_table_record_count validate_table_exists
  rcases h with h | h | h | h <;>
    by_cases hc : c.connected <;> by_cases hf : c.fault <;>
      by_cases hft : (c.db.findTable t).isSome <;>
        simp_all [Db.rowsOf]

/-- Same fact for `MSSQLConnection.get_table_record_count`. -/
theorem mssql_count_zero_cases {V} [DecidableEq V] (c : ConnState V) (t : String)
    (h : c.connected = false ∨ c.fault = true ∨ c.db.findTable t = none ∨
      c.db.rowsOf t = []) :
    mssql_get_table_record_count c t = 0 := by
  unfold mssql_get_table_record_count validate_table_exists
  rcases h with h | h | h | h <;>
    by_cases hc : c.connected <;> by_cases hf : c.fault <;>
      by_cases hft : (c.db.findTable t).isSome <;>
        simp_all [Db.rowsOf]

/-- The MSSQL fallback chain returns no rows from an empty table, whichever
strategy ends up running. -/
theorem mssql_chain_nil {V} [DecidableEq V] [LinearOrder V] (c : ConnState V)
    (f : MsFlags) (t : String) (page ps : Nat) (h : c.db.rowsOf t = []) :
    mssql_records_chain c f t page ps = [] := by
  unfold mssql_records_chain
  rw [h]
  by_cases h0 : 11 ≤ f.majorVersion <;> by_cases h1 : f.versionCheckFails <;>
    by_cases h2 : f.offsetFetchFails <;> by_cases h3 : f.rowNumberFails <;>
      by_cases h4 : f.topFails <;>
        simp [h0, h1, h2, h3, h4, offsetFetchRows, rowNumberRows, numberFrom,
          topNotInRows, List.insertionSort]

/-- `MySQLConnection.get_paginated_records` returns the empty page on every
failure and on an empty table. -/
theorem mysql_paginate_empty_cases {V} [DecidableEq V] (c : ConnState V) (t : String)
    (page ps : Nat) (cols : Option (List String))
    (h : c.connected = false ∨ c.fault = true ∨ c.db.findTable t = none ∨
      c.db.rowsOf t = []) :
    mysql_get_paginated_records c t page ps cols = emptyPage _ := by
  rcases h with h | h | h | h
  · unfold mysql_get_paginated_records
    simp [h]
  · unfold mysql_get_paginated_records validate_table_exists
    by_cases hc : c.connected <;> simp [h, hc]
  · unfold mysql_get_paginated_records validate_table_exists
    by_cases hc : c.connected <;> by_cases hf : c.fault <;> simp [h, hc, hf]
  · unfold mysql_get_paginated_records validate_table_exists
    by_cases hc : c.connected <;> by_cases hf : c.fault <;>
      by_cases hft : (c.db.findTable t).isSome <;>
        simp [h, hc, hf, hft, emptyPage, offsetFetchRows, totalPages]

/-- `MSSQLConnection.get_paginated_records` returns the empty page on every
failure and on an empty table. -/
theorem mssql_paginate_empty_cases {V} [DecidableEq V] [LinearOrder V] (c : ConnState V)
    (f : MsFlags) (t : String) (page ps : Nat) (cols : Option (List String))
    (h : c.connected = false ∨ c.fault = true ∨ c.db.findTable t = none ∨
      c.db.rowsOf t = []) :
    mssql_get_paginated_records c f t page ps cols = emptyPage _ := by
  rcases h with h | h | h | h
  · unfold mssql_get_paginated_records
    simp [h]
  · unfold mssql_get_paginated_records validate_table_exists
    by_cases hc : c.connected <;> simp [h, hc]
  · unfold mssql_get_paginated_records validate_table_exists
    by_cases hc : c.connected <;> by_cases hf : c.fault <;> simp [h, hc, hf]
  · have hch := mssql_chain_nil c f t page ps h
    unfold mssql_get_paginated_records validate_table_exists
    by_cases hc : c.connected <;> by_cases hf : c.fault <;>
      by_cases hft : (c.db.findTable t).isSome <;>
        simp [h, hc, hf, hft, hch, emptyPage, totalPages]

/-! ## C10 -/

/-- C10: at the adapter interface of the relational connectors, no active
connection, a backend fault, and an unknown table all yield `0` from
`get_table_record_count` and the `records = [], total_count = 0,
total_pages = 0` page from `get_paginated_records` — exactly the values an
existing but empty table yields, so a failure is indistinguishable from an
empty table. -/
theorem adapter_failures_look_like_empty_table {V} [DecidableEq V] [LinearOrder V]
    (c : ConnState V) (f : MsFlags) (t : String) (page ps : Nat) :
    (c.connected = false →
      mysql_get_table_record_count c t = 0 ∧ mssql_get_table_record_count c t = 0 ∧
        mysql_get_paginated_records c t page ps none = emptyPage _ ∧
        mssql_get_paginated_records c f t page ps none = emptyPage _) ∧
    (c.fault = true →
      mysql_get_table_record_count c t = 0 ∧ mssql_get_table_record_count c t = 0 ∧
        mysql_get_paginated_records c t page ps none = emptyPage _ ∧
        mssql_get_paginated_records c f t page ps none = emptyPage _) ∧
    (c.db.findTable t = none →
      mysql_get_table_record_count c t = 0 ∧ mssql_get_table_record_count c t = 0 ∧
        mysql_get_paginated_records c t page ps none = emptyPage _ ∧
        mssql_get_paginated_records c f t page ps none = emptyPage _) ∧
    (c.db.rowsOf t = [] →
      mysql_get_table_record_count c t = 0 ∧ mssql_get_table_record_count c t = 0 ∧
        mysql_get_paginated_records c t page ps none = emptyPage _ ∧
        mssql_get_paginated_records c f t page ps none = emptyPage _) := by
  refine ⟨fun h => ?_, fun h => ?_, fun h => ?_, fun h => ?_⟩
  · exact ⟨mysql_count_zero_cases c t (Or.inl h), mssql_count_zero_cases c t (Or.inl h),
      mysql_paginate_empty_cases c t page ps none (Or.inl h),
      mssql_paginate_empty_cases c f t page ps none (Or.inl h)⟩
  · exact ⟨mysql_count_zero_cases c t (Or.inr (Or.inl h)),
      mssql_count_zero_cases c t (Or.inr (Or.inl h)),
      mysql_paginate_empty_cases c t page ps none (Or.inr (Or.inl h)),
      mssql_paginate_empty_cases c f t page ps none (Or.inr (Or.inl h))⟩
  · exact ⟨mysql_count_zero_cases c t (Or.inr (Or.inr (Or.inl h))),
      mssql_count_zero_cases c t (Or.inr (Or.inr (Or.inl h))),
      mysql_paginate_empty_cases c t page ps none (Or.inr (Or.inr (Or.inl h))),
      mssql_paginate_empty_cases c f t page ps none (Or.inr (Or.inr (Or.inl h)))⟩
  · exact ⟨mysql_count_zero_cases c t (Or.inr (Or.inr (Or.inr h))),
      mssql_count_zero_cases c t (Or.inr (Or.inr (Or.inr h))),
      mysql_paginate_empty_cases c t page ps none (Or.inr (Or.inr (Or.inr h))),
      mssql_paginate_empty_cases c f t page ps none (Or.inr (Or.inr (Or.inr h)))⟩

/-- Disconnected connector used by the C10 witness. -/
def cDisc : ConnState Nat := ⟨false, false, ⟨[]⟩⟩

/-- Witness for C10: a disconnected connector yields the empty-table
values. -/
theorem adapter_failures_look_like_empty_table_witness :
    ConnState.connected cDisc = false ∧
      (mysql_get_table_record_count cDisc "users" = 0 ∧
        mssql_get_table_record_count cDisc "users" = 0 ∧
        mysql_get_paginated_records cDisc "users" 1 50 none = emptyPage _ ∧
        mssql_get_paginated_records cDisc fDefault "users" 1 50 none = emptyPage _) :=
  ⟨rfl,
   (adapter_failures_look_like_empty_table cDisc fDefault "users" 1 50).1 rfl⟩

/-! ## C4 -/

/-- C4 counterexample: `"ghost"` is unknown to `cNoGhost` yet
`get_table_record_count` and `get_paginated_records` return exactly the
values they return for the existing empty table `ghost` of `cEmptyGhost` —
the caller receives no `ObjectNotFound`-like error, only a value
indistinguishable from success on an empty table. -/
theorem unknown_table_not_distinguished_cex :
    Db.findTable cNoGhost.db "ghost" = none ∧
      (Db.findTable cEmptyGhost.db "ghost").isSome = true ∧
      mysql_get_table_record_count cNoGhost "ghost" =
        mysql_get_table_record_count cEmptyGhost "ghost" ∧
      mysql_get_paginated_records cNoGhost "ghost" 1 50 none =
        mysql_get_paginated_records cEmptyGhost "ghost" 1 50 none := by
  refine ⟨by decide, by decide, ?_, ?_⟩
  · rw [mysql_count_zero_cases cNoGhost "ghost" (Or.inr (Or.inr (Or.inl (by decide)))),
      mysql_count_zero_cases cEmptyGhost "ghost" (Or.inr (Or.inr (Or.inr (by decide))))]
  · rw [mysql_paginate_empty_cases cNoGhost "ghost" 1 50 none
        (Or.inr (Or.inr (Or.inl (by decide)))),
      mysql_paginate_empty_cases cEmptyGhost "ghost" 1 50 none
        (Or.inr (Or.inr (Or.inr (by decide))))]

/-- C4 amended: an unknown table makes `_validate_table_exists` raise
`ValueError` — never a raw backend SQL error — but the public read
operations catch it and return the empty-table defaults (`0`,
`records = [], total_count = 0, total_pages = 0`), values indistinguishable
from success on an empty table. -/
theorem unknown_table_yields_defaults {V} [DecidableEq V] [LinearOrder V]
    (c : ConnState V) (f : MsFlags) (t : String) (page ps : Nat)
    (hf : c.fault = false) (hn : c.db.findTable t = none) :
    validate_table_exists c t = .error .valueError ∧
      mysql_get_table_record_count c t = 0 ∧
      mssql_get_table_record_count c t = 0 ∧
      mysql_get_paginated_records c t page ps none = emptyPage _ ∧
      mssql_get_paginated_records c f t page ps none = emptyPage _ := by
  refine ⟨?_,
    mysql_count_zero_cases c t (Or.inr (Or.inr (Or.inl hn))),
    mssql_count_zero_cases c t (Or.inr (Or.inr (Or.inl hn))),
    mysql_paginate_empty_cases c t page ps none (Or.inr (Or.inr (Or.inl hn))),
    mssql_paginate_empty_cases c f t page ps none (Or.inr (Or.inr (Or.inl hn)))⟩
  simp [validate_table_exists, hf, hn]

/-- Witness for the amended C4 at the concrete connector missing
`ghost`. -/
theorem unknown_table_yields_defaults_witness :
    ConnState.fault cNoGhost = false ∧ Db.findTable cNoGhost.db "ghost" = none ∧
      (validate_table_exists cNoGhost "ghost" = .error .valueError ∧
        mysql_get_table_record_count cNoGhost "ghost" = 0 ∧
        mssql_get_table_record_count cNoGhost "ghost" = 0 ∧
        mysql_get_paginated_records cNoGhost "ghost" 1 50 none = emptyPage _ ∧
        mssql_get_paginated_records cNoGhost fDefault "ghost" 1 50 none = emptyPage _) :=
  ⟨rfl, by decide,
   unknown_table_yields_defaults cNoGhost fDefault "ghost" 1 50 rfl (by decide)⟩

/-! ## C7 -/

/-- C7: an update or delete that targets an id matching zero rows returns
the boolean `false`, not an exception: shown for `MSSQLConnection.
update_record`, `MySQLConnection.delete_record` and `MongoDBConnection.
update_record`. -/
theorem zero_rows_affected_returns_false {V} [DecidableEq V] (c : ConnState V)
    (mg : MgState V) (t : String) (id : V) (col : String) (v : V)
    (hc : c.connected = true) (hf : c.fault = false)
    (hex : (c.db.findTable t).isSome = true)
    (hvc : (validate_columns c t [col]).isEmpty = false)
    (hz1 : matchCount (c.db.rowsOf t) (primary_key_or_first_column c t "ID") id = 0)
    (hz2 : matchCount (c.db.rowsOf t) (primary_key_or_first_column c t "id") id = 0)
    (mc : mg.connected = true) (mf : mg.fault = false)
    (me : (mg.findColl t).isSome = true)
    (mz : (mg.docsOf t).find? (fun d => d.id == id) = none) :
    mssql_update_record c t id col = .ok false ∧
      mysql_delete_record c t id = false ∧
      mongo_update_record mg t id col v = .ok false := by
  refine ⟨?_, ?_, ?_⟩
  · unfold mssql_update_record validate_table_exists
    simp [hc, hf, hex, hvc, hz1]
  · unfold mysql_delete_record validate_table_exists
    simp [hc, hf, hex, hz2]
  · unfold mongo_update_record mongo_validate_table_exists
    simp [mc, mf, me, mz]

/-- Connector state with one row (`id = 1`) used by the C7 witness. -/
def cOneRow : ConnState Nat :=
  ⟨true, false, ⟨[⟨"t", ["id", "v"], some "id", [[("id", 1), ("v", 2)]]⟩]⟩⟩

/-- Mongo state with one document (`_id = 1`) used by the C7 witness. -/
def mgT : MgState Nat := ⟨true, false, [⟨"t", [⟨1, [("v", 2)]⟩]⟩]⟩

/-- Witness for C7: targeting the missing id `99` returns `false` from all
three write operations. -/
theorem zero_rows_affected_returns_false_witness :
    matchCount (Db.rowsOf cOneRow.db "t") (primary_key_or_first_column cOneRow "t" "ID")
        99 = 0 ∧
      (MgState.docsOf mgT "t").find? (fun d => d.id == 99) = none ∧
      (mssql_update_record cOneRow "t" 99 "v" = .ok false ∧
        mysql_delete_record cOneRow "t" 99 = false ∧
        mongo_update_record mgT "t" 99 "v" 5 = .ok false) :=
  ⟨by decide, by decide,
   zero_rows_affected_returns_false cOneRow mgT "t" 99 "v" 5 rfl rfl (by decide)
     (by decide) (by decide) (by decide) rfl rfl (by decide) (by decide)⟩

/-! ## C3 -/

/-- C3 counterexample: the selected-columns router path splices the
caller-supplied column and table names straight into the statement text —
`evil` is not a column of any table of the catalog, yet it appears verbatim
in the generated statement; the MySQL `create_record` likewise splices the
payload keys with no catalog check. -/
theorem identifiers_without_validation_cex :
    router_records_query "users" ["evil"] =
      "SELECT `evil` FROM `users` LIMIT %s OFFSET %s" ∧
      ¬ ("evil" ∈ Db.columnsOf cNoGhost.db "users") ∧
      (mysql_create_statement "users" [("evil", "1")]).1 =
        "INSERT INTO `users` (`evil`) VALUES (%s)" := by
  refine ⟨by decide, by decide, by decide⟩

/-- C3 amended: the MSSQL adapter interpolates only catalog-confirmed
identifiers — `_validate_columns` keeps exactly the requested columns the
catalog lists, and `create_record` splices only such columns — and row
values are passed as statement parameters; but the selected-columns router
path and MySQL `create_record` interpolate caller-supplied identifiers
without catalog confirmation, and pagination offsets are interpolated as
integers rather than bound. -/
theorem mssql_identifiers_validated {V} [DecidableEq V] (c : ConnState V) (t : String)
    (cols : List String) (data : List (String × String)) :
    (∀ col ∈ validate_columns c t cols, col ∈ c.db.columnsOf t) ∧
      (∀ col ∈ mssql_create_columns c t data, col ∈ c.db.columnsOf t) ∧
      (mysql_create_statement t data).2 =
        (data.filter (fun e => e.2 != "")).map Prod.snd := by
  refine ⟨?_, ?_, rfl⟩
  · intro col hcol
    have := List.of_mem_filter hcol
    simpa using this
  · intro col hcol
    have := List.of_mem_filter hcol
    simpa using this

/-- Witness for the amended C3: the surviving column `id` of a mixed
request is confirmed by the catalog, and the `INSERT` parameters are the
filtered payload values. -/
theorem mssql_identifiers_validated_witness :
    ("id" ∈ validate_columns cNoGhost "users" ["id", "evil"]) ∧
      ("id" ∈ Db.columnsOf cNoGhost.db "users") ∧
      (mysql_create_statement "users" [("name", "x"), ("skip", "")]).2 =
        (([("name", "x"), ("skip", "")] : List (String × String)).filter
          (fun e => e.2 != "")).map Prod.snd :=
  ⟨by decide,
   (mssql_identifiers_validated cNoGhost "users" ["id", "evil"] []).1 "id" (by decide),
   (mssql_identifiers_validated cNoGhost "users" []
     [("name", "x"), ("skip", "")]).2.2⟩

end DbExp
